import Mathlib

/-!
Shallow embedding of the fitness-tracker module (two Python source files,
`fitness_tracker.py` and `homework.py`) and verification of its
specification claims.

Python floats are modelled as rationals (ℚ); the arithmetic of every claim
is exact at the inputs involved.  Python exceptions are modelled with
`Except PyErr`; Python `None` (returned by the base class's `pass` body) is
modelled as `Option.none`.  Division (`/`) and floor division (`//`) are
modelled by `pydiv` and `pyfloordiv`, which raise `ZeroDivisionError` on a
zero divisor exactly as Python does.
-/

namespace FitnessTracker

/-- A Python exception, by class and message. -/
inductive PyErr where
  | keyError (msg : String)
  | typeError (msg : String)
  | zeroDivisionError (msg : String)
  | unboundLocalError (msg : String)
deriving Repr, DecidableEq

instance {ε α : Type} [DecidableEq ε] [DecidableEq α] : DecidableEq (Except ε α) := fun x y =>
  match x, y with
  | .error a, .error b =>
      if h : a = b then isTrue (h ▸ rfl)
      else isFalse fun hc => h (Except.error.inj hc)
  | .error _, .ok _ => isFalse Except.noConfusion
  | .ok _, .error _ => isFalse Except.noConfusion
  | .ok a, .ok b =>
      if h : a = b then isTrue (h ▸ rfl)
      else isFalse fun hc => h (Except.ok.inj hc)

/-- Python `a / b` on floats: raises `ZeroDivisionError` when `b = 0`. -/
def pydiv (a b : ℚ) : Except PyErr ℚ :=
  if b = 0 then .error (.zeroDivisionError "float division by zero") else .ok (a / b)

/-- Python `a // b` on floats: floor of the quotient, raising
`ZeroDivisionError` when `b = 0`. -/
def pyfloordiv (a b : ℚ) : Except PyErr ℚ :=
  if b = 0 then .error (.zeroDivisionError "float floor division by zero")
  else .ok ((⌊a / b⌋ : ℤ) : ℚ)

/-- The `InfoMessage` value object: class `InfoMessage` in both files.
`calories` is an `Option` because the base class's `get_spent_calories`
returns Python `None`. -/
structure InfoMessage where
  training_type : String
  duration : ℚ
  distance : ℚ
  speed : ℚ
  calories : Option ℚ
deriving Repr, DecidableEq

/-- One activity record.  The four constructors are the four Python classes
(`Training` and its three subclasses); each carries exactly the fields its
`__init__` stores.  Identical class layout in both source files. -/
inductive Training where
  | base (action duration weight : ℚ)
  | running (action duration weight : ℚ)
  | sportsWalking (action duration weight height : ℚ)
  | swimming (action duration weight length_pool count_pool : ℚ)
deriving Repr, DecidableEq

namespace Training

/-- Field `self.action` (set by the shared `Training.__init__`). -/
def action : Training → ℚ
  | .base a _ _ => a
  | .running a _ _ => a
  | .sportsWalking a _ _ _ => a
  | .swimming a _ _ _ _ => a

/-- Field `self.duration`. -/
def duration : Training → ℚ
  | .base _ d _ => d
  | .running _ d _ => d
  | .sportsWalking _ d _ _ => d
  | .swimming _ d _ _ _ => d

/-- Field `self.weight`. -/
def weight : Training → ℚ
  | .base _ _ w => w
  | .running _ _ w => w
  | .sportsWalking _ _ w _ => w
  | .swimming _ _ w _ _ => w

/-- `self.__class__.__name__`, used by `show_training_info`. -/
def className : Training → String
  | .base .. => "Training"
  | .running .. => "Running"
  | .sportsWalking .. => "SportsWalking"
  | .swimming .. => "Swimming"

end Training

/-- `M_IN_KM = 1000`, identical in both files. -/
def M_IN_KM : ℚ := 1000

/-! ## `fitness_tracker.py` (namespace `FT`) -/

namespace FT

/-- Python attribute lookup `self.LEN_STEP`: `Training.LEN_STEP = 0.65`,
overridden by `Swimming.LEN_STEP = 1.38`. -/
def LEN_STEP : Training → ℚ
  | .swimming .. => 1.38
  | _ => 0.65

/-- `Training.get_distance` (fitness_tracker.py:58-60):
`self.action * self.LEN_STEP / self.M_IN_KM`.  No subclass overrides it in
this file, so via `self.LEN_STEP` the swimming case uses `1.38`. -/
def get_distance (t : Training) : Except PyErr ℚ :=
  pydiv (t.action * LEN_STEP t) M_IN_KM

/-- `get_mean_speed`: the base method (fitness_tracker.py:62-64) returns
`self.get_distance() / self.duration`; `Swimming.get_mean_speed`
(fitness_tracker.py:142-148) overrides it with
`length_pool * count_pool / M_IN_KM / duration`. -/
def get_mean_speed (t : Training) : Except PyErr ℚ :=
  match t with
  | .swimming _ d _ lp cp => do
      let distance_m_pool := lp * cp
      let distance_km_pool ← pydiv distance_m_pool M_IN_KM
      pydiv distance_km_pool d
  | _ => do
      let dist ← get_distance t
      pydiv dist t.duration

/-- `get_spent_calories`.  The base body (fitness_tracker.py:66-68) is
`pass`, i.e. the call succeeds and returns Python `None` (`Option.none`);
each subclass overrides it with its calorie formula. -/
def get_spent_calories (t : Training) : Except PyErr (Option ℚ) :=
  match t with
  | .base .. => .ok none
  | .running _ d w => do
      let ms ← get_mean_speed t
      let mean_speed_transf := 18 * ms - 20
      let duration_in_min := d * 60
      let r ← pydiv (mean_speed_transf * w) M_IN_KM
      .ok (some (r * duration_in_min))
  | .sportsWalking _ d w h => do
      let weight_transf := 0.035 * w
      let ms ← get_mean_speed t
      let q ← pyfloordiv (ms ^ 2) h
      let sq_speed_by_h_w := q * 0.029 * w
      let duration_in_min := d * 60
      .ok (some ((weight_transf + sq_speed_by_h_w) * duration_in_min))
  | .swimming _ _ w _ _ => do
      let ms ← get_mean_speed t
      let mean_speed_transf := (ms + 1.1) * 2
      .ok (some (mean_speed_transf * w))

/-- `Training.show_training_info` (fitness_tracker.py:70-76): builds an
`InfoMessage` from the class name, `duration`, `get_distance()`,
`get_mean_speed()` and `get_spent_calories()`, evaluated in that order. -/
def show_training_info (t : Training) : Except PyErr InfoMessage := do
  let dist ← get_distance t
  let ms ← get_mean_speed t
  let cal ← get_spent_calories t
  .ok { training_type := t.className, duration := t.duration,
        distance := dist, speed := ms, calories := cal }

/-- `show_training_info` as an explicit state transformer on the record: the
method body contains no assignment to `self`, so the post-state is the
unchanged record. -/
def show_training_info_run (t : Training) : Training × Except PyErr InfoMessage :=
  (t, show_training_info t)

/-- `read_package` (fitness_tracker.py:167-171): raises `KeyError` naming
the code when it is not in `ALL_ACTIVITIES`, otherwise calls the matching
constructor with the list spread as positional arguments (a wrong-arity
list raises `TypeError` at the call). -/
def read_package (workout_type : String) (data : List ℚ) : Except PyErr Training :=
  if workout_type = "SWM" then
    match data with
    | [a, d, w, lp, cp] => .ok (.swimming a d w lp cp)
    | _ => .error (.typeError "Swimming.__init__ positional argument count mismatch")
  else if workout_type = "RUN" then
    match data with
    | [a, d, w] => .ok (.running a d w)
    | _ => .error (.typeError "Running.__init__ positional argument count mismatch")
  else if workout_type = "WLK" then
    match data with
    | [a, d, w, h] => .ok (.sportsWalking a d w h)
    | _ => .error (.typeError "SportsWalking.__init__ positional argument count mismatch")
  else
    .error (.keyError ("Незвестный тип тренировки - " ++ workout_type))

/-- Dispatch followed by the summary computation (the data flow of `main`). -/
def process (workout_type : String) (data : List ℚ) : Except PyErr InfoMessage := do
  let t ← read_package workout_type data
  show_training_info t

end FT

/-! ## `homework.py` (namespace `HW`) -/

namespace HW

/-- `Training.get_distance` (homework.py:58-61) uses the *static* lookup
`Training.LEN_STEP = 0.65`; `Swimming.get_distance` (homework.py:140-143)
overrides it with `self.action * Swimming.LEN_STEP / Training.M_IN_KM`
where `Swimming.LEN_STEP = 1.38`. -/
def get_distance (t : Training) : Except PyErr ℚ :=
  match t with
  | .swimming a _ _ _ _ => pydiv (a * 1.38) M_IN_KM
  | _ => pydiv (t.action * 0.65) M_IN_KM

/-- `get_mean_speed`: base method (homework.py:63-66) is
`self.get_distance() / self.duration`; `Swimming.get_mean_speed`
(homework.py:145-151) overrides it with
`length_pool * count_pool / M_IN_KM / duration`. -/
def get_mean_speed (t : Training) : Except PyErr ℚ :=
  match t with
  | .swimming _ d _ lp cp => do
      let m ← pydiv (lp * cp) M_IN_KM
      pydiv m d
  | _ => do
      let dist ← get_distance t
      pydiv dist t.duration

/-- `get_spent_calories`.  Base body (homework.py:68-70) is `pass`,
returning Python `None`; the three subclasses override it
(homework.py:86-95, 113-120, 153-158). -/
def get_spent_calories (t : Training) : Except PyErr (Option ℚ) :=
  match t with
  | .base .. => .ok none
  | .running _ d w => do
      let ms ← get_mean_speed t
      let r ← pydiv ((18 * ms - 20) * w) M_IN_KM
      .ok (some (r * d * 60))
  | .sportsWalking _ d w h => do
      let ms ← get_mean_speed t
      let q ← pyfloordiv (ms ^ 2) h
      .ok (some ((0.035 * w + q * 0.029 * w) * d * 60))
  | .swimming _ _ w _ _ => do
      let ms ← get_mean_speed t
      .ok (some ((ms + 1.1) * 2 * w))

/-- `Training.show_training_info` (homework.py:72-77): positional
`InfoMessage(class name, duration, get_distance(), get_mean_speed(),
get_spent_calories())`, evaluated left to right. -/
def show_training_info (t : Training) : Except PyErr InfoMessage := do
  let dist ← get_distance t
  let ms ← get_mean_speed t
  let cal ← get_spent_calories t
  .ok { training_type := t.className, duration := t.duration,
        distance := dist, speed := ms, calories := cal }

/-- `show_training_info` as an explicit state transformer on the record:
the method body contains no assignment to `self`, so the post-state is the
unchanged record. -/
def show_training_info_run (t : Training) : Training × Except PyErr InfoMessage :=
  (t, show_training_info t)

/-- `read_package` (homework.py:161-171): constructs the matching variant
when the code is in `dict_all_activities`; otherwise the local variable
`training` is never assigned and the trailing `return training` raises
`UnboundLocalError` — an error whose message does not mention the code. -/
def read_package (workout_type : String) (data : List ℚ) : Except PyErr Training :=
  if workout_type = "SWM" then
    match data with
    | [a, d, w, lp, cp] => .ok (.swimming a d w lp cp)
    | _ => .error (.typeError "Swimming.__init__ positional argument count mismatch")
  else if workout_type = "RUN" then
    match data with
    | [a, d, w] => .ok (.running a d w)
    | _ => .error (.typeError "Running.__init__ positional argument count mismatch")
  else if workout_type = "WLK" then
    match data with
    | [a, d, w, h] => .ok (.sportsWalking a d w h)
    | _ => .error (.typeError "SportsWalking.__init__ positional argument count mismatch")
  else
    .error (.unboundLocalError "local variable training referenced before assignment")

/-- Dispatch followed by the summary computation (the data flow of `main`). -/
def process (workout_type : String) (data : List ℚ) : Except PyErr InfoMessage := do
  let t ← read_package workout_type data
  show_training_info t

end HW

/-! ## Claims -/

/-- C1, counterexample.  At the sample swimming record
`(action=720, duration=1, weight=80, length_pool=25, count_pool=40)` both
implementations return distance `621/625 = 0.9936` km — the stroke-based
formula `720 * 1.38 / 1000` — while the pool-based formula
`pool_length * lengths / 1000` gives `25 * 40 / 1000 = 1` km, so
`distance_km()` does not equal the pool-based value. -/
theorem C1_counterexample :
    FT.get_distance (.swimming 720 1 80 25 40) = .ok (621 / 625) ∧
    HW.get_distance (.swimming 720 1 80 25 40) = .ok (621 / 625) ∧
    25 * (40 : ℚ) / 1000 = 1 ∧ (621 / 625 : ℚ) ≠ 1 := by
  refine ⟨?_, ?_, by norm_num, by norm_num⟩ <;>
    norm_num [FT.get_distance, HW.get_distance, FT.LEN_STEP, pydiv, M_IN_KM, Training.action]

/-- C1, amended.  For every Swimming record, `distance_km()` in both
implementations equals `step_or_stroke_count * 1.38 / 1000`: the generic
stroke-based formula with Swimming's `LEN_STEP = 1.38`, not the pool-based
formula (which is used only for mean speed). -/
theorem C1_swimming_distance_is_stroke_based (a d w lp cp : ℚ) :
    FT.get_distance (.swimming a d w lp cp) = .ok (a * 1.38 / 1000) ∧
    HW.get_distance (.swimming a d w lp cp) = .ok (a * 1.38 / 1000) := by
  constructor <;>
    norm_num [FT.get_distance, HW.get_distance, FT.LEN_STEP, pydiv, M_IN_KM, Training.action]

/-- C2.  The base `Training.get_spent_calories` body is `pass`, so in both
implementations the call on a base record *succeeds* and returns Python
`None` (modelled `Option.none`): it does not raise, contradicting the
claim that the call must fail, and contradicting the method's own
`-> float` annotation. -/
theorem C2_base_calories_returns_none (a d w : ℚ) :
    FT.get_spent_calories (.base a d w) = .ok none ∧
    HW.get_spent_calories (.base a d w) = .ok none :=
  ⟨rfl, rfl⟩

/-- C3, counterexample.  For the unknown code `"XYZ"`, `homework.py`'s
dispatcher fails with `UnboundLocalError` — not an unrecognized-activity-
type error — and returns the *same* error for the distinct unknown code
`"ABC"`, so its error cannot identify the offending code. -/
theorem C3_counterexample :
    HW.read_package "XYZ" [720] =
      .error (.unboundLocalError "local variable training referenced before assignment") ∧
    HW.read_package "XYZ" [720] = HW.read_package "ABC" [720] := by
  constructor <;> rfl

/-- C3, amended.  For every code other than `SWM`/`RUN`/`WLK` and every
reading list, both dispatchers fail and construct no record:
`fitness_tracker.py` raises a `KeyError` whose message names the offending
code, while `homework.py` raises an `UnboundLocalError` whose message does
not mention the code. -/
theorem C3_unknown_code_dispatch_fails (wt : String) (data : List ℚ)
    (h1 : wt ≠ "SWM") (h2 : wt ≠ "RUN") (h3 : wt ≠ "WLK") :
    FT.read_package wt data = .error (.keyError ("Незвестный тип тренировки - " ++ wt)) ∧
    HW.read_package wt data =
      .error (.unboundLocalError "local variable training referenced before assignment") := by
  constructor <;> simp [FT.read_package, HW.read_package, h1, h2, h3]

/-- C3, witness at code `"XYZ"` with the sample running data. -/
theorem C3_witness :
    ("XYZ" : String) ≠ "SWM" ∧ ("XYZ" : String) ≠ "RUN" ∧ ("XYZ" : String) ≠ "WLK" ∧
    FT.read_package "XYZ" [15000, 1, 75] =
      .error (.keyError ("Незвестный тип тренировки - " ++ "XYZ")) ∧
    HW.read_package "XYZ" [15000, 1, 75] =
      .error (.unboundLocalError "local variable training referenced before assignment") := by
  have h := C3_unknown_code_dispatch_fails "XYZ" [15000, 1, 75]
    (by decide) (by decide) (by decide)
  exact ⟨by decide, by decide, by decide, h.1, h.2⟩

/-- C4.  For every RaceWalking record with non-negative action and weight
and positive duration and height, both implementations compute
`calories = (0.035*w + ⌊speed² / height⌋ * 0.029 * w) * duration * 60`,
with the floor applied exactly at the `speed² / height` quotient and no
rounding elsewhere; at the sample `(9000, 1, 75, 180)` the result is
`(0.035*75 + ⌊5.85² / 180⌋ * 0.029 * 75) * 60`. -/
theorem C4_walking_calories (a d w h : ℚ)
    (ha : 0 ≤ a) (hw : 0 ≤ w) (hd : 0 < d) (hh : 0 < h) :
    FT.get_mean_speed (.sportsWalking a d w h) = .ok (a * 0.65 / 1000 / d) ∧
    HW.get_mean_speed (.sportsWalking a d w h) = .ok (a * 0.65 / 1000 / d) ∧
    FT.get_spent_calories (.sportsWalking a d w h) =
      .ok (some ((0.035 * w +
        ((⌊(a * 0.65 / 1000 / d) ^ 2 / h⌋ : ℤ) : ℚ) * 0.029 * w) * d * 60)) ∧
    HW.get_spent_calories (.sportsWalking a d w h) =
      .ok (some ((0.035 * w +
        ((⌊(a * 0.65 / 1000 / d) ^ 2 / h⌋ : ℤ) : ℚ) * 0.029 * w) * d * 60)) ∧
    FT.get_spent_calories (.sportsWalking 9000 1 75 180) =
      .ok (some ((0.035 * 75 + ((⌊(5.85 : ℚ) ^ 2 / 180⌋ : ℤ) : ℚ) * 0.029 * 75) * 60)) ∧
    HW.get_spent_calories (.sportsWalking 9000 1 75 180) =
      .ok (some ((0.035 * 75 + ((⌊(5.85 : ℚ) ^ 2 / 180⌋ : ℤ) : ℚ) * 0.029 * 75) * 60)) := by
  have hd0 : d ≠ 0 := hd.ne'
  have hh0 : h ≠ 0 := hh.ne'
  refine ⟨?_, ?_, ?_, ?_, ?_, ?_⟩ <;>
    norm_num [FT.get_mean_speed, HW.get_mean_speed, FT.get_distance, HW.get_distance,
      FT.get_spent_calories, HW.get_spent_calories, FT.LEN_STEP, pydiv, pyfloordiv,
      M_IN_KM, Training.action, Training.duration, Bind.bind, Except.bind, hd0, hh0] <;>
    ring_nf

/-- C4, witness at the sample RaceWalking record `(9000, 1, 75, 180)`. -/
theorem C4_witness :
    (0 : ℚ) ≤ 9000 ∧ (0 : ℚ) ≤ 75 ∧ (0 : ℚ) < 1 ∧ (0 : ℚ) < 180 ∧
    FT.get_spent_calories (.sportsWalking 9000 1 75 180) =
      .ok (some ((0.035 * 75 + ((⌊(5.85 : ℚ) ^ 2 / 180⌋ : ℤ) : ℚ) * 0.029 * 75) * 60)) :=
  ⟨by norm_num, by norm_num, by norm_num, by norm_num,
    (C4_walking_calories 9000 1 75 180 (by norm_num) (by norm_num)
      (by norm_num) (by norm_num)).2.2.2.2.1⟩

/-- C5, counterexample.  At the sample Running record `(15000, 1, 75)`
both implementations return calories `699.75`, and the claim's own
expression `(18*9.75 - 20)*75/1000*60` also evaluates to `699.75`, which
differs from the claimed value `719.55` by `19.8` — so the calories do not
equal (even approximately) `719.55`. -/
theorem C5_counterexample :
    FT.get_spent_calories (.running 15000 1 75) = .ok (some 699.75) ∧
    HW.get_spent_calories (.running 15000 1 75) = .ok (some 699.75) ∧
    (18 * (9.75 : ℚ) - 20) * 75 / 1000 * 60 = 699.75 ∧
    (699.75 : ℚ) ≠ 719.55 ∧ |(699.75 : ℚ) - 719.55| = 19.8 := by
  refine ⟨?_, ?_, by norm_num, by norm_num, by norm_num⟩ <;>
    norm_num [FT.get_spent_calories, HW.get_spent_calories, FT.get_mean_speed,
      HW.get_mean_speed, FT.get_distance, HW.get_distance, FT.LEN_STEP, pydiv,
      M_IN_KM, Training.action, Training.duration, Bind.bind, Except.bind]

/-- C5, amended.  For every Running record with positive duration, both
implementations compute
`calories = (18 * mean_speed - 20) * weight / 1000 * duration * 60`; at the
sample `(15000, 1, 75)` the distance is `9.75` km, the mean speed `9.75`
km/h, and the calories `(18*9.75 - 20)*75/1000*60 = 699.75` (not 719.55). -/
theorem C5_running_calories (a d w : ℚ) (hd : 0 < d) :
    FT.get_mean_speed (.running a d w) = .ok (a * 0.65 / 1000 / d) ∧
    HW.get_mean_speed (.running a d w) = .ok (a * 0.65 / 1000 / d) ∧
    FT.get_spent_calories (.running a d w) =
      .ok (some ((18 * (a * 0.65 / 1000 / d) - 20) * w / 1000 * d * 60)) ∧
    HW.get_spent_calories (.running a d w) =
      .ok (some ((18 * (a * 0.65 / 1000 / d) - 20) * w / 1000 * d * 60)) ∧
    FT.get_distance (.running 15000 1 75) = .ok 9.75 ∧
    FT.get_mean_speed (.running 15000 1 75) = .ok 9.75 ∧
    FT.get_spent_calories (.running 15000 1 75) = .ok (some 699.75) ∧
    HW.get_spent_calories (.running 15000 1 75) = .ok (some 699.75) := by
  have hd0 : d ≠ 0 := hd.ne'
  refine ⟨?_, ?_, ?_, ?_, ?_, ?_, ?_, ?_⟩ <;>
    norm_num [FT.get_mean_speed, HW.get_mean_speed, FT.get_distance, HW.get_distance,
      FT.get_spent_calories, HW.get_spent_calories, FT.LEN_STEP, pydiv,
      M_IN_KM, Training.action, Training.duration, Bind.bind, Except.bind, hd0] <;>
    ring_nf

/-- C5, witness at the sample Running record `(15000, 1, 75)`. -/
theorem C5_witness :
    (0 : ℚ) < 1 ∧
    FT.get_spent_calories (.running 15000 1 75) = .ok (some 699.75) :=
  ⟨by norm_num, (C5_running_calories 15000 1 75 (by norm_num)).2.2.2.2.2.2.1⟩

/-- C6.  For every Swimming record with positive duration, both
implementations compute `mean_speed = length_pool * count_pool / 1000 /
duration` and `calories = (mean_speed + 1.1) * 2 * weight`; at the sample
`(720, 1, 80, 25, 40)` the mean speed is `1` km/h and the calories `336`. -/
theorem C6_swimming_calories (a d w lp cp : ℚ) (hd : 0 < d) :
    FT.get_mean_speed (.swimming a d w lp cp) = .ok (lp * cp / 1000 / d) ∧
    HW.get_mean_speed (.swimming a d w lp cp) = .ok (lp * cp / 1000 / d) ∧
    FT.get_spent_calories (.swimming a d w lp cp) =
      .ok (some ((lp * cp / 1000 / d + 1.1) * 2 * w)) ∧
    HW.get_spent_calories (.swimming a d w lp cp) =
      .ok (some ((lp * cp / 1000 / d + 1.1) * 2 * w)) ∧
    FT.get_mean_speed (.swimming 720 1 80 25 40) = .ok 1 ∧
    FT.get_spent_calories (.swimming 720 1 80 25 40) = .ok (some 336) ∧
    HW.get_spent_calories (.swimming 720 1 80 25 40) = .ok (some 336) := by
  have hd0 : d ≠ 0 := hd.ne'
  refine ⟨?_, ?_, ?_, ?_, ?_, ?_, ?_⟩ <;>
    norm_num [FT.get_mean_speed, HW.get_mean_speed, FT.get_spent_calories,
      HW.get_spent_calories, pydiv, M_IN_KM, Training.duration,
      Bind.bind, Except.bind, hd0] <;>
    ring_nf

/-- C6, witness at the sample Swimming record `(720, 1, 80, 25, 40)`. -/
theorem C6_witness :
    (0 : ℚ) < 1 ∧
    FT.get_spent_calories (.swimming 720 1 80 25 40) = .ok (some 336) :=
  ⟨by norm_num, (C6_swimming_calories 720 1 80 25 40 (by norm_num)).2.2.2.2.2.1⟩

/-- C7.  For every record whose `duration` is `0`, `get_mean_speed` in both
implementations raises `ZeroDivisionError` (every variant divides by
`duration`); in particular it never returns a value. -/
theorem C7_zero_duration_speed_fails (t : Training) (h : t.duration = 0) :
    FT.get_mean_speed t = .error (.zeroDivisionError "float division by zero") ∧
    HW.get_mean_speed t = .error (.zeroDivisionError "float division by zero") ∧
    ∀ v : ℚ, FT.get_mean_speed t ≠ .ok v ∧ HW.get_mean_speed t ≠ .ok v := by
  have hFT : FT.get_mean_speed t = .error (.zeroDivisionError "float division by zero") := by
    cases t <;>
      (simp only [Training.duration] at h; subst h) <;>
      norm_num [FT.get_mean_speed, FT.get_distance, FT.LEN_STEP, pydiv,
        M_IN_KM, Training.action, Training.duration, Bind.bind, Except.bind]
  have hHW : HW.get_mean_speed t = .error (.zeroDivisionError "float division by zero") := by
    cases t <;>
      (simp only [Training.duration] at h; subst h) <;>
      norm_num [HW.get_mean_speed, HW.get_distance, pydiv,
        M_IN_KM, Training.action, Training.duration, Bind.bind, Except.bind]
  refine ⟨hFT, hHW, fun v => ⟨?_, ?_⟩⟩
  · rw [hFT]; exact fun hc => Except.noConfusion hc
  · rw [hHW]; exact fun hc => Except.noConfusion hc

/-- C7, witness: a base record with `duration = 0`. -/
theorem C7_witness :
    Training.duration (.base 720 0 80) = 0 ∧
    FT.get_mean_speed (.base 720 0 80) =
      .error (.zeroDivisionError "float division by zero") :=
  ⟨rfl, (C7_zero_duration_speed_fails (.base 720 0 80) rfl).1⟩

/-- C8.  For the two step-based variants in both implementations, distance
is `action * 0.65 / 1000`, and with the other fields fixed a strictly
larger step count gives a strictly larger distance. -/
theorem C8_distance_monotone (a₁ a₂ d w hgt : ℚ) (h : a₁ < a₂) :
    FT.get_distance (.running a₁ d w) = .ok (a₁ * 0.65 / 1000) ∧
    FT.get_distance (.running a₂ d w) = .ok (a₂ * 0.65 / 1000) ∧
    FT.get_distance (.sportsWalking a₁ d w hgt) = .ok (a₁ * 0.65 / 1000) ∧
    FT.get_distance (.sportsWalking a₂ d w hgt) = .ok (a₂ * 0.65 / 1000) ∧
    HW.get_distance (.running a₁ d w) = .ok (a₁ * 0.65 / 1000) ∧
    HW.get_distance (.running a₂ d w) = .ok (a₂ * 0.65 / 1000) ∧
    HW.get_distance (.sportsWalking a₁ d w hgt) = .ok (a₁ * 0.65 / 1000) ∧
    HW.get_distance (.sportsWalking a₂ d w hgt) = .ok (a₂ * 0.65 / 1000) ∧
    a₁ * 0.65 / 1000 < a₂ * 0.65 / 1000 := by
  refine ⟨?_, ?_, ?_, ?_, ?_, ?_, ?_, ?_, by nlinarith⟩ <;>
    norm_num [FT.get_distance, HW.get_distance, FT.LEN_STEP, pydiv,
      M_IN_KM, Training.action]

/-- C8, witness: step counts `9000 < 15000` with the sample fixed fields. -/
theorem C8_witness :
    (9000 : ℚ) < 15000 ∧ (9000 : ℚ) * 0.65 / 1000 < 15000 * 0.65 / 1000 :=
  ⟨by norm_num, (C8_distance_monotone 9000 15000 1 75 180 (by norm_num)).2.2.2.2.2.2.2.2⟩

/-- C9.  `show_training_info` as a state transformer leaves the record
unchanged (its body performs no assignment to `self`), and a second
invocation on the resulting state yields the same report as the first, in
both implementations. -/
theorem C9_summary_pure_idempotent (t : Training) :
    (FT.show_training_info_run t).1 = t ∧
    (FT.show_training_info_run (FT.show_training_info_run t).1).2 =
      (FT.show_training_info_run t).2 ∧
    (HW.show_training_info_run t).1 = t ∧
    (HW.show_training_info_run (HW.show_training_info_run t).1).2 =
      (HW.show_training_info_run t).2 :=
  ⟨rfl, rfl, rfl, rfl⟩

/-- C10.  For each recognized code with a correctly-sized reading list,
positive duration, and (for `WLK`) positive height, dispatch followed by
the summary computation yields the same report in both implementations. -/
theorem C10_implementations_agree (a d w lp cp hgt : ℚ) (hd : 0 < d) (hh : 0 < hgt) :
    FT.process "SWM" [a, d, w, lp, cp] = HW.process "SWM" [a, d, w, lp, cp] ∧
    FT.process "RUN" [a, d, w] = HW.process "RUN" [a, d, w] ∧
    FT.process "WLK" [a, d, w, hgt] = HW.process "WLK" [a, d, w, hgt] := by
  have hd0 : d ≠ 0 := hd.ne'
  have hh0 : hgt ≠ 0 := hh.ne'
  refine ⟨?_, ?_, ?_⟩ <;>
    (simp [FT.process, HW.process, FT.read_package, HW.read_package,
      FT.show_training_info, HW.show_training_info, FT.get_distance, HW.get_distance,
      FT.get_mean_speed, HW.get_mean_speed, FT.get_spent_calories, HW.get_spent_calories,
      FT.LEN_STEP, pydiv, pyfloordiv, M_IN_KM, Training.action, Training.duration,
      Training.className, Bind.bind, Except.bind, hd0, hh0]) <;>
    ring_nf

/-- C10, witness at the three sample readings (with height 180 for `WLK`). -/
theorem C10_witness :
    (0 : ℚ) < 1 ∧ (0 : ℚ) < 180 ∧
    FT.process "SWM" [720, 1, 80, 25, 40] = HW.process "SWM" [720, 1, 80, 25, 40] ∧
    FT.process "RUN" [720, 1, 80] = HW.process "RUN" [720, 1, 80] ∧
    FT.process "WLK" [720, 1, 80, 180] = HW.process "WLK" [720, 1, 80, 180] := by
  have h := C10_implementations_agree 720 1 80 25 40 180 (by norm_num) (by norm_num)
  exact ⟨by norm_num, by norm_num, h.1, h.2.1, h.2.2⟩

end FitnessTracker
